import Mathlib

/-!
Verification of the `gold_vault_sim` repository: a shallow embedding of the
breach-classification engine (`src/server/verify_logic.py`), the secure
packet builder (`src/gateway/simulated_gateway.py`) and the AES utility
layer (`src/gateway/crypto/aes_utils.py`), together with theorems settling
the specification claims about them.

Conventions of the embedding:
- Python machine values that the code only observes through a fixed set of
  operations are quotiented by those observations (e.g. the `purity` field is
  only observed through `float(...)`, so it is modelled by the result of that
  conversion).
- External library functions (the `cryptography` AES core, `json`, `base64`,
  pycryptodome SHA3/RSA, `datetime.fromisoformat`) are parameters of the
  embedded functions, constrained by the library contracts the theorems need;
  the repository's own code is translated directly.
- Fallible Python code returns `Except PyErr`; each `PyErr` constructor
  records which Python exception class the branch raises.
-/

set_option autoImplicit false

namespace GoldVault

/-- Models the Python exception classes that the embedded code can raise.
`ivSizeValueError`, `blockLenValueError` and `paddingValueError` are all
`ValueError` in Python (raised respectively by the `Cipher` constructor on a
non-16-byte CBC iv, by `decryptor.finalize()` on data that is not a multiple
of the block length, and by `_pkcs7_unpad`'s explicit
`raise ValueError("Invalid padding length")`); `indexError` is `IndexError`
(from `data[-1]` on empty bytes); `typeError` is `TypeError` (from comparing
a `datetime` against a `str`). -/
inductive PyErr where
  | typeError
  | ivSizeValueError
  | blockLenValueError
  | paddingValueError
  | indexError
  deriving DecidableEq, Repr

/-- Models `datetime.datetime` objects.  `classify_event` never observes the
fields of a parsed timestamp (its only use, the comparison against the
string fetched from the database, raises `TypeError` before reading them),
but we keep the calendar fields for fidelity. -/
structure PyDateTime where
  year : ℕ
  month : ℕ
  day : ℕ
  hour : ℕ
  minute : ℕ
  second : ℕ
  deriving DecidableEq, Repr

/-- The `timestamp` entry of the payload dict, quotiented by what
`classify_event` observes: either the value is a `datetime` instance
(`isinstance(ts_raw, datetime)` is true), or it is any other value whose
`str()` rendering is the recorded string (for an actual `str` payload value,
`str(x) = x`). -/
inductive TsField where
  | dt (d : PyDateTime)
  | other (s : String)
  deriving DecidableEq, Repr

/-- The `purity` entry of the payload dict, quotiented by what
`classify_event` observes through `float(...)`: `num q` stands for every
Python value on which `float()` returns the number `q` (floats, ints,
numeric strings, booleans), `nonNumeric` for every value on which `float()`
raises `TypeError` or `ValueError`. -/
inductive PurityField where
  | num (q : ℚ)
  | nonNumeric
  deriving DecidableEq, Repr

/-- The decrypted event payload dict handed to `classify_event`.  A field is
`none` when the key is absent from the dict.  The string-typed fields model
the values the surrounding simulation actually sends; `classify_event` only
compares them for equality against string constants.  `gps_lat`/`gps_lon`
are deliberately ignored by the code and hence omitted. -/
structure Payload where
  vault_id : Option String := none
  bar_id : Option String := none
  rfid_uid : Option String := none
  tamper_status : Option String := none
  vault_door_status : Option String := none
  purity : Option PurityField := none
  timestamp : Option TsField := none
  deriving DecidableEq, Repr

/-- The module-global dict `EXPECTED_RFID_BY_BAR`, as an insertion-ordered
association list (Python dicts preserve insertion order; `_get_expected_rfid`
only ever inserts a key that is absent, so keys stay unique). -/
abbrev Registry := List (String × String)

/-- Dict lookup `bar_id in EXPECTED_RFID_BY_BAR` / `EXPECTED_RFID_BY_BAR[bar_id]`. -/
def lookupReg : Registry → String → Option String
  | [], _ => none
  | (b, u) :: rest, bar => if b = bar then some u else lookupReg rest bar

/-- Initial value of `EXPECTED_RFID_BY_BAR` (src/server/verify_logic.py line 12). -/
def initialRegistry : Registry := [("BAR-001", "TAG12345")]

/-- `PURITY_MIN` (src/server/verify_logic.py line 11). -/
def PURITY_MIN : ℚ := 99

/-- `_get_expected_rfid` (src/server/verify_logic.py lines 18-28): returns the
configured UID, or — learn-on-first-use — inserts the observed UID as the
canonical one for an unseen bar.  The returned registry is the (possibly
updated) global dict. -/
def _get_expected_rfid (reg : Registry) (bar_id rfid_uid : String) :
    String × Registry :=
  match lookupReg reg bar_id with
  | some e => (e, reg)
  | none => (rfid_uid, reg ++ [(bar_id, rfid_uid)])

/-- One row of the `vault_events` table, restricted to the two columns
`_get_last_event_time` reads.  The `timestamp` column is `String(100)`
(src/server/database.py line 42), so the stored value is a `str`. -/
structure DbEvent where
  bar_id : String
  timestamp : String
  deriving DecidableEq, Repr

/-- The `vault_events` table contents. -/
abbrev Db := List DbEvent

/-- `_get_last_event_time` (src/server/verify_logic.py lines 31-46): the
query filters on `bar_id`, orders by the `timestamp` column descending and
takes the first row, i.e. it returns the largest stored timestamp string
for the bar (SQLite TEXT ordering; UTF-8 byte order agrees with Lean's
`String` order), or `none` when the bar has no rows.  Note the returned
value is a `str` from the `String(100)` column, not a `datetime`, despite
the source's `Optional[datetime]` annotation. -/
def _get_last_event_time (db : Db) (bar_id : String) : Option String :=
  (db.filter (fun e => e.bar_id = bar_id)).foldl
    (fun acc e =>
      match acc with
      | none => some e.timestamp
      | some t => some (if t < e.timestamp then e.timestamp else t))
    none

/-- Models Python's fixed-point formatting `f"{x:.2f}"`: round to the nearest
hundredth (ties to even) and print with exactly two decimals.  The payload
purities the code formats are exact hundredths, where this agrees with
CPython exactly. -/
def fmt2 (q : ℚ) : String :=
  let scaled : ℕ := q.num.natAbs * 100
  let fl : ℕ := scaled / q.den
  let rem : ℕ := scaled % q.den
  let n : ℕ :=
    if q.den < 2 * rem then fl + 1
    else if 2 * rem < q.den then fl
    else if fl % 2 = 0 then fl else fl + 1
  let ip : ℕ := n / 100
  let fp : ℕ := n % 100
  (if q.num < 0 then "-" else "") ++ toString ip ++ "." ++
    (if fp < 10 then "0" else "") ++ toString fp

/-- Reason string appended at src/server/verify_logic.py line 114. -/
def integrity_reason : String :=
  "Payload hash/signature invalid (integrity failure)"

/-- Reason string appended at line 119. -/
def bad_timestamp_reason : String := "Invalid or missing timestamp"

/-- Reason string appended at line 124 (an f-string embedding the observed state). -/
def tamper_reason (tamper_status : String) : String :=
  "Tamper mesh status = " ++ tamper_status

/-- Reason string appended at line 130. -/
def rfid_mismatch_reason : String := "RFID UID mismatch for this bar"

/-- Reason string appended at lines 135-137: embeds the observed purity and
the threshold, both formatted with two decimals. -/
def purity_reason (purity : ℚ) : String :=
  "Purity below threshold (" ++ fmt2 purity ++ "% < " ++ fmt2 PURITY_MIN ++ "%)"

/-- Reason string appended at line 143. -/
def door_reason : String := "Vault door opened without associated bar_id/RFID"

/-- Reason string at line 149.  Dead in practice: the guard on line 148
raises `TypeError` before this string can be appended (see `replay_stage`). -/
def replay_reason : String :=
  "Timestamp older than or equal to last event (possible replay)"

/-- Step 0 of `classify_event` for the purity field (lines 96-99):
`float(payload.get("purity", 0.0))`, with `TypeError`/`ValueError`
caught and replaced by `0.0`. -/
def payload_purity (p : Payload) : ℚ :=
  match p.purity with
  | none => 0
  | some (.num q) => q
  | some .nonNumeric => 0

/-- Step 0 of `classify_event` for the timestamp field (lines 102-110):
a `datetime` value is used as-is, any other value `v` (including an absent
key, for which `v = None` and `str(None) = "None"`) goes through
`datetime.fromisoformat(str(v))`, with failures mapped to `None`.
`parseIso` is the `datetime.fromisoformat` library function. -/
def payload_timestamp (parseIso : String → Option PyDateTime) (p : Payload) :
    Option PyDateTime :=
  match p.timestamp with
  | none => parseIso "None"
  | some (.dt d) => some d
  | some (.other s) => parseIso s

/-- Rule 6 of `classify_event` (lines 146-150), replay detection.  When a
previous event exists, the code evaluates `timestamp <= last_ts` where
`timestamp` is a `datetime` and `last_ts` is the `str` fetched from the
`String(100)` column, which raises
`TypeError: not supported between instances of datetime and str`. -/
def replay_stage (db : Db) (bar_id : String) (reg : Registry) :
    Except PyErr (String × List String) × Registry :=
  match _get_last_event_time db bar_id with
  | some _ => (.error .typeError, reg)
  | none => (.ok ("SECURE", []), reg)

/-- Rule 5 of `classify_event` (lines 140-144), the basic door rule: breach
only when the door status is exactly "OPEN" and the bar id is empty. -/
def door_stage (db : Db) (bar_id vault_door_status : String) (reg : Registry) :
    Except PyErr (String × List String) × Registry :=
  if vault_door_status = "OPEN" ∧ bar_id = "" then
    (.ok ("BREACH", [door_reason]), reg)
  else replay_stage db bar_id reg

/-- Rule 4 of `classify_event` (lines 133-138), the purity threshold. -/
def purity_stage (db : Db) (bar_id vault_door_status : String) (purity : ℚ)
    (reg : Registry) : Except PyErr (String × List String) × Registry :=
  if purity < PURITY_MIN then
    (.ok ("BREACH", [purity_reason purity]), reg)
  else door_stage db bar_id vault_door_status reg

/-- `classify_event` (src/server/verify_logic.py lines 49-153).  The global
state it reads and writes is passed explicitly: `db` is the `vault_events`
table (read by `_get_last_event_time`), `reg` is `EXPECTED_RFID_BY_BAR`
(read and possibly extended by `_get_expected_rfid`); the updated registry
is returned alongside the result.  A `.error` result models the call
raising the recorded Python exception.  `vault_id` is extracted by the
source (line 90) but never used. -/
def classify_event (parseIso : String → Option PyDateTime) (db : Db)
    (reg : Registry) (payload : Payload)
    (hash_valid signature_valid : Bool) :
    Except PyErr (String × List String) × Registry :=
  let bar_id := payload.bar_id.getD ""
  let rfid_uid := payload.rfid_uid.getD ""
  let tamper_status := payload.tamper_status.getD "UNKNOWN"
  let vault_door_status := payload.vault_door_status.getD "UNKNOWN"
  let purity := payload_purity payload
  let timestamp := payload_timestamp parseIso payload
  if !hash_valid || !signature_valid then
    (.ok ("BREACH", [integrity_reason]), reg)
  else match timestamp with
  | none => (.ok ("BREACH", [bad_timestamp_reason]), reg)
  | some _ =>
    if tamper_status ≠ "INTACT" then
      (.ok ("BREACH", [tamper_reason tamper_status]), reg)
    else
      let er := _get_expected_rfid reg bar_id rfid_uid
      let expected_rfid := er.1
      let reg' := er.2
      if rfid_uid ≠ expected_rfid then
        (.ok ("BREACH", [rfid_mismatch_reason]), reg')
      else purity_stage db bar_id vault_door_status purity reg'

/-! ## Crypto layer: src/gateway/crypto/aes_utils.py and the packet pipeline -/

/-- A Python byte. -/
abbrev Byte := Fin 256

/-- A Python `bytes` value. -/
abbrev Bytes := List Byte

/-- `BLOCK_SIZE` (src/gateway/crypto/aes_utils.py line 13). -/
def BLOCK_SIZE : ℕ := 16

/-- `_pkcs7_pad` (aes_utils.py lines 16-18): append `pad_len` copies of the
byte `pad_len`, where `pad_len = 16 - len(data) % 16` (always in 1..16). -/
def _pkcs7_pad (data : Bytes) : Bytes :=
  data ++ List.replicate (BLOCK_SIZE - data.length % BLOCK_SIZE)
    (⟨BLOCK_SIZE - data.length % BLOCK_SIZE,
      Nat.lt_of_le_of_lt (Nat.sub_le _ _) (by decide)⟩ : Byte)

/-- `_pkcs7_unpad` (aes_utils.py lines 21-25): `data[-1]` raises `IndexError`
on empty input; a trailing byte of 0 or above the block size raises
`ValueError("Invalid padding length")`; otherwise the last `pad_len` bytes
are dropped (`data[:-pad_len]`, which is empty when `pad_len` exceeds the
length, matching Python slicing). -/
def _pkcs7_unpad (data : Bytes) : Except PyErr Bytes :=
  match data.getLast? with
  | none => .error .indexError
  | some pad_len =>
    if pad_len.val < 1 ∨ BLOCK_SIZE < pad_len.val then .error .paddingValueError
    else .ok (data.take (data.length - pad_len.val))

/-- `encrypt_aes_cbc` (aes_utils.py lines 28-35).  The AES-256-CBC core of
the `cryptography` library is the parameter `E` (keyed with the fixed
`AES_KEY`), and the fresh `os.urandom(16)` iv is the parameter `iv`: the
function pads the plaintext, encrypts it under the iv, and returns
(ciphertext, iv). -/
def encrypt_aes_cbc (E : Bytes → Bytes → Bytes) (iv : Bytes)
    (plaintext : Bytes) : Bytes × Bytes :=
  (E iv (_pkcs7_pad plaintext), iv)

/-- `decrypt_aes_cbc` (aes_utils.py lines 38-43).  `D` is the library's
AES-256-CBC decryption core (keyed with the fixed `AES_KEY`).  The library
raises `ValueError` from the `Cipher` constructor when the CBC iv is not 16
bytes, and from `decryptor.update/finalize` when the ciphertext length is
not a multiple of the block length; otherwise the decrypted data is
unpadded by `_pkcs7_unpad`. -/
def decrypt_aes_cbc (D : Bytes → Bytes → Bytes) (ciphertext iv : Bytes) :
    Except PyErr Bytes :=
  if iv.length ≠ 16 then .error .ivSizeValueError
  else if ciphertext.length % BLOCK_SIZE ≠ 0 then .error .blockLenValueError
  else _pkcs7_unpad (D iv ciphertext)

/-- `SensorReading` (src/gateway/simulated_gateway.py lines 36-46); the
float fields are modelled as rationals. -/
structure SensorReading where
  timestamp : String
  vault_id : String
  bar_id : String
  rfid_uid : String
  purity : ℚ
  gps_lat : ℚ
  gps_lon : ℚ
  tamper_status : String
  vault_door_status : String
  deriving DecidableEq, Repr

/-- The wire packet assembled by `build_secure_packet` (simulated_gateway.py
lines 131-139): plaintext routing metadata plus the four base64 fields. -/
structure SecurePacket where
  vault_id : String
  bar_id : String
  timestamp : String
  payload_ciphertext : String
  iv : String
  hash_sha3_256 : String
  signature : String
  deriving DecidableEq, Repr

/-- `build_secure_packet` (simulated_gateway.py lines 104-140).  The library
functions are parameters: `canon` is `json.dumps(asdict(reading),
separators=(",", ":"), sort_keys=True).encode("utf-8")` (the canonical
serializer), `sha3` is `sha3_256_bytes`, `sign` is `sign_sha3_256` already
keyed with the loaded private key, `E`/`iv` are the AES core and the fresh
iv as in `encrypt_aes_cbc`, and `b64e` is `base64.b64encode(...).decode()`.
The pipeline and packet layout are the repository's code. -/
def build_secure_packet (canon : SensorReading → Bytes)
    (sha3 : Bytes → Bytes) (sign : Bytes → Bytes)
    (E : Bytes → Bytes → Bytes) (b64e : Bytes → String) (iv : Bytes)
    (reading : SensorReading) : SecurePacket :=
  let payload_bytes := canon reading
  let digest := sha3 payload_bytes
  let signature := sign digest
  let ct_iv := encrypt_aes_cbc E iv payload_bytes
  { vault_id := reading.vault_id
    bar_id := reading.bar_id
    timestamp := reading.timestamp
    payload_ciphertext := b64e ct_iv.1
    iv := b64e ct_iv.2
    hash_sha3_256 := b64e digest
    signature := b64e signature }

/-- Modelled from the spec: `verify_and_decrypt_packet`, the packet
verifier.  It is called in src/server/main.py but its body is absent from
src/server/verify_logic.py, so it is modelled from spec section 4.4:
base64-decode the four opaque fields (`DecodeError` on failure), decrypt
the ciphertext with the shared key and the packet's iv (`CryptoError` on a
padding violation), recompute the digest over the decrypted plaintext and
compare it byte-for-byte with the embedded digest, verify the embedded
signature against the embedded digest with the public key
(`verify_sha3_256`, the parameter `verify_sig`), and parse the plaintext as
a canonical reading (`ParseError` on failure).  Failures yield `none`;
success yields the reconstructed reading with the `hash_ok` and
`signature_ok` flags. -/
def verify_and_decrypt_packet (b64d : String → Option Bytes)
    (D : Bytes → Bytes → Bytes) (sha3 : Bytes → Bytes)
    (verify_sig : Bytes → Bytes → Bool)
    (parse : Bytes → Option SensorReading) (packet : SecurePacket) :
    Option (SensorReading × Bool × Bool) :=
  match b64d packet.payload_ciphertext, b64d packet.iv,
      b64d packet.hash_sha3_256, b64d packet.signature with
  | some ct, some iv, some digest, some sg =>
    match decrypt_aes_cbc D ct iv with
    | .error _ => none
    | .ok plaintext =>
      match parse plaintext with
      | none => none
      | some r => some (r, decide (sha3 plaintext = digest), verify_sig digest sg)
  | _, _, _, _ => none

/-! ## Concrete inputs used by witnesses and counterexamples -/

/-- A stand-in for `datetime.fromisoformat` sufficient for the concrete runs
below: every concrete payload carries a `datetime` instance, which bypasses
the parser entirely. -/
def isoNone : String → Option PyDateTime := fun _ => none

/-- Payload for C1: vault door FORCED_OPEN, every other check passing. -/
def payloadForcedOpen : Payload :=
  { vault_id := some "VLT-001"
    bar_id := some "BAR-001"
    rfid_uid := some "TAG12345"
    tamper_status := some "INTACT"
    vault_door_status := some "FORCED_OPEN"
    purity := some (.num 100)
    timestamp := some (.dt ⟨2024, 1, 1, 0, 0, 0⟩) }

/-- Payload for C4: a perfectly valid reading for BAR-001. -/
def payloadReplayCrash : Payload :=
  { vault_id := some "VLT-001"
    bar_id := some "BAR-001"
    rfid_uid := some "TAG12345"
    tamper_status := some "INTACT"
    vault_door_status := some "CLOSED"
    purity := some (.num 100)
    timestamp := some (.dt ⟨2024, 1, 2, 0, 0, 0⟩) }

/-- Payload for C6: unregistered bar BAR-002, purity 50 (below threshold). -/
def payloadLearnedBreach : Payload :=
  { vault_id := some "VLT-001"
    bar_id := some "BAR-002"
    rfid_uid := some "TAGX"
    tamper_status := some "INTACT"
    vault_door_status := some "CLOSED"
    purity := some (.num 50)
    timestamp := some (.dt ⟨2024, 1, 1, 0, 0, 0⟩) }

/-- Payload for C9: a second valid reading for BAR-001. -/
def payloadSecondReading : Payload :=
  { vault_id := some "VLT-001"
    bar_id := some "BAR-001"
    rfid_uid := some "TAG12345"
    tamper_status := some "INTACT"
    vault_door_status := some "CLOSED"
    purity := some (.num 100)
    timestamp := some (.dt ⟨2023, 6, 1, 0, 0, 0⟩) }

/-- Payloads for C5: three readings for the unconfigured bar BAR-777,
with tag TAG-A, then TAG-B, then TAG-A again. -/
def payloadFirstTagA : Payload :=
  { vault_id := some "VLT-001"
    bar_id := some "BAR-777"
    rfid_uid := some "TAG-A"
    tamper_status := some "INTACT"
    vault_door_status := some "CLOSED"
    purity := some (.num 100)
    timestamp := some (.dt ⟨2024, 2, 1, 0, 0, 0⟩) }

def payloadThenTagB : Payload :=
  { payloadFirstTagA with
    rfid_uid := some "TAG-B"
    timestamp := some (.dt ⟨2024, 2, 2, 0, 0, 0⟩) }

def payloadAgainTagA : Payload :=
  { payloadFirstTagA with
    timestamp := some (.dt ⟨2024, 2, 3, 0, 0, 0⟩) }

/-- Payloads for C7: purity exactly at, and strictly below, the minimum. -/
def payloadPurityEdge : Payload :=
  { payloadReplayCrash with purity := some (.num 99) }

def payloadPurityLow : Payload :=
  { payloadReplayCrash with purity := some (.num 97) }

/-- Payload for C10: the purity key is absent from the dict. -/
def payloadNoPurity : Payload :=
  { payloadReplayCrash with purity := none }

/-- A 16-byte iv of zeros. -/
def ivZeros : Bytes := List.replicate 16 (0 : Byte)

/-- A well-padded one-block ciphertext for the C8 witness. -/
def ctOneByte : Bytes := List.replicate 15 (0 : Byte) ++ [(1 : Byte)]

/-- Concrete reading for the C2 witness (the values the gateway simulates). -/
def readingNormal : SensorReading :=
  { timestamp := "2024-01-01T00:00:00+00:00"
    vault_id := "VLT-001"
    bar_id := "BAR-001"
    rfid_uid := "TAG12345"
    purity := 99
    gps_lat := 12
    gps_lon := 80
    tamper_status := "INTACT"
    vault_door_status := "CLOSED" }

/-- Injective byte-string encoding used to instantiate the base64 encoder
contract in witnesses: each byte becomes the character with its code
point. -/
def chrEncode (bs : Bytes) : String := String.mk (bs.map fun b => Char.ofNat b.val)

/-- Left inverse of `chrEncode`. -/
def chrDecode (s : String) : Option Bytes :=
  some (s.data.map fun c => (⟨c.toNat % 256, Nat.mod_lt _ (by norm_num)⟩ : Byte))

/-- Decidable equality for `Except`, so that concrete runs of the embedded
functions can be checked by `decide`. -/
instance exceptDecEq {ε α : Type} [DecidableEq ε] [DecidableEq α] :
    DecidableEq (Except ε α) := fun a b =>
  match a, b with
  | .ok x, .ok y =>
    if h : x = y then .isTrue (by rw [h])
    else .isFalse (by intro hc; cases hc; exact h rfl)
  | .error x, .error y =>
    if h : x = y then .isTrue (by rw [h])
    else .isFalse (by intro hc; cases hc; exact h rfl)
  | .ok _, .error _ => .isFalse (by intro hc; cases hc)
  | .error _, .ok _ => .isFalse (by intro hc; cases hc)

/-- The three stages after the identity check never change the registry. -/
@[simp] theorem replay_stage_snd (db : Db) (bar_id : String) (reg : Registry) :
    (replay_stage db bar_id reg).2 = reg := by
  unfold replay_stage
  cases _get_last_event_time db bar_id <;> rfl

@[simp] theorem door_stage_snd (db : Db) (bar_id vault_door_status : String)
    (reg : Registry) : (door_stage db bar_id vault_door_status reg).2 = reg := by
  unfold door_stage
  split <;> simp

@[simp] theorem purity_stage_snd (db : Db) (bar_id vault_door_status : String)
    (purity : ℚ) (reg : Registry) :
    (purity_stage db bar_id vault_door_status purity reg).2 = reg := by
  unfold purity_stage
  split <;> simp

/-- Learn-on-first-use lookup: inserting an absent key at the end of the
registry makes it findable. -/
theorem lookupReg_append_self (reg : Registry) (bar u : String)
    (h : lookupReg reg bar = none) :
    lookupReg (reg ++ [(bar, u)]) bar = some u := by
  induction reg with
  | nil => simp [lookupReg]
  | cons hd tl ih =>
    obtain ⟨b, v⟩ := hd
    by_cases hb : b = bar
    · simp [lookupReg, hb] at h
    · simp only [lookupReg, List.cons_append, if_neg hb] at h ⊢
      exact ih h

/-- When the integrity flags are valid, the timestamp parses, the tamper
mesh is INTACT and the observed UID agrees with the expected one,
`classify_event` runs exactly the remaining rules (purity, door, replay)
on the updated registry. -/
theorem classify_event_to_purity_stage (parseIso : String → Option PyDateTime)
    (db : Db) (reg : Registry) (p : Payload) (d : PyDateTime)
    (hts : payload_timestamp parseIso p = some d)
    (htamper : p.tamper_status = some "INTACT")
    (hrfid : p.rfid_uid.getD "" =
      (_get_expected_rfid reg (p.bar_id.getD "") (p.rfid_uid.getD "")).1) :
    classify_event parseIso db reg p true true =
      purity_stage db (p.bar_id.getD "") (p.vault_door_status.getD "UNKNOWN")
        (payload_purity p)
        (_get_expected_rfid reg (p.bar_id.getD "") (p.rfid_uid.getD "")).2 := by
  unfold classify_event
  rw [hts, htamper]
  simp only [Bool.not_true, Bool.or_self, Bool.false_eq_true, if_false,
    Option.getD_some]
  rw [if_neg (by simp), if_neg (by rw [← hrfid] at *; simp)]

/-- When the earlier rules pass but the observed UID differs from the
registered baseline, `classify_event` reports the RFID mismatch and leaves
the registry as it was. -/
theorem classify_event_rfid_mismatch (parseIso : String → Option PyDateTime)
    (db : Db) (reg : Registry) (p : Payload) (d : PyDateTime) (u : String)
    (hts : payload_timestamp parseIso p = some d)
    (htamper : p.tamper_status = some "INTACT")
    (hlook : lookupReg reg (p.bar_id.getD "") = some u)
    (hne : p.rfid_uid.getD "" ≠ u) :
    classify_event parseIso db reg p true true =
      (.ok ("BREACH", [rfid_mismatch_reason]), reg) := by
  unfold classify_event
  rw [hts, htamper]
  simp only [Bool.not_true, Bool.or_self, Bool.false_eq_true, if_false,
    Option.getD_some]
  rw [if_neg (by simp)]
  simp only [_get_expected_rfid, hlook]
  rw [if_pos hne]

/-! ## Claim C1 -/

/-- Claim C1 counterexample: a payload whose vault_door_status is
FORCED_OPEN, with valid crypto flags, a parsable (datetime) timestamp,
INTACT tamper mesh, the UID matching the configured baseline for BAR-001,
purity at the minimum or above and no previously accepted event, is
classified SECURE — not BREACH as the claim states. -/
theorem forced_open_classified_secure_cex :
    classify_event isoNone [] initialRegistry payloadForcedOpen true true =
      (.ok ("SECURE", []), initialRegistry) ∧
    payloadForcedOpen.vault_door_status = some "FORCED_OPEN" ∧
    lookupReg initialRegistry "BAR-001" = some "TAG12345" ∧
    PURITY_MIN ≤ payload_purity payloadForcedOpen := by decide

/-- Claim C1 amended: the door rule of `classify_event` only fires for door
status "OPEN" with an empty bar id; a FORCED_OPEN payload that passes every
other check (valid flags, parsable timestamp, INTACT tamper, matching RFID,
purity at or above the minimum, no previously recorded event for the bar)
is classified SECURE. -/
theorem forced_open_door_rule_passes (parseIso : String → Option PyDateTime)
    (db : Db) (reg : Registry) (p : Payload) (d : PyDateTime)
    (hts : payload_timestamp parseIso p = some d)
    (htamper : p.tamper_status = some "INTACT")
    (hdoor : p.vault_door_status = some "FORCED_OPEN")
    (hrfid : p.rfid_uid.getD "" =
      (_get_expected_rfid reg (p.bar_id.getD "") (p.rfid_uid.getD "")).1)
    (hpurity : PURITY_MIN ≤ payload_purity p)
    (hfresh : _get_last_event_time db (p.bar_id.getD "") = none) :
    classify_event parseIso db reg p true true =
      (.ok ("SECURE", []),
        (_get_expected_rfid reg (p.bar_id.getD "") (p.rfid_uid.getD "")).2) := by
  rw [classify_event_to_purity_stage parseIso db reg p d hts htamper hrfid]
  unfold purity_stage door_stage replay_stage
  rw [if_neg (not_lt.mpr hpurity), if_neg (by rw [hdoor]; simp), hfresh]

theorem forced_open_door_rule_passes_witness :
    classify_event isoNone [] initialRegistry payloadForcedOpen true true =
      (.ok ("SECURE", []),
        (_get_expected_rfid initialRegistry (payloadForcedOpen.bar_id.getD "")
          (payloadForcedOpen.rfid_uid.getD "")).2) :=
  forced_open_door_rule_passes isoNone [] initialRegistry payloadForcedOpen
    ⟨2024, 1, 1, 0, 0, 0⟩ (by decide) (by decide) (by decide) (by decide)
    (by decide) (by decide)

/-! ## Claim C3 -/

/-- Claim C3 counterexample: a hash-only failure and a signature-only
failure yield the identical single reason string, so the reason does not
name which of the two checks failed. -/
theorem integrity_reason_identical_cex :
    classify_event isoNone [] initialRegistry payloadForcedOpen false true =
      (.ok ("BREACH", [integrity_reason]), initialRegistry) ∧
    classify_event isoNone [] initialRegistry payloadForcedOpen true false =
      (.ok ("BREACH", [integrity_reason]), initialRegistry) ∧
    (classify_event isoNone [] initialRegistry payloadForcedOpen false true).1 =
      (classify_event isoNone [] initialRegistry payloadForcedOpen true false).1 := by
  decide

/-- Claim C3 amended: when either integrity flag is false, `classify_event`
returns BREACH with the single fixed integrity reason, independently of the
payload and of the stored events, and leaves the registry unchanged; no
further rule is evaluated. -/
theorem integrity_failure_short_circuits (parseIso : String → Option PyDateTime)
    (db : Db) (reg : Registry) (p : Payload) (hv sv : Bool)
    (h : hv = false ∨ sv = false) :
    classify_event parseIso db reg p hv sv =
      (.ok ("BREACH", [integrity_reason]), reg) := by
  unfold classify_event
  rcases h with h | h <;> subst h <;> simp

theorem integrity_failure_short_circuits_witness :
    classify_event isoNone [] initialRegistry payloadForcedOpen false false =
      (.ok ("BREACH", [integrity_reason]), initialRegistry) :=
  integrity_failure_short_circuits isoNone [] initialRegistry payloadForcedOpen
    false false (Or.inl rfl)

/-! ## Claim C4 -/

/-- Claim C4: replay detection never runs.  On a payload that passes every
earlier rule, for a bar that already has a stored event, the comparison
`timestamp <= last_ts` pits a datetime against the `str` fetched from the
String(100) column and raises `TypeError` — the call crashes instead of
returning the BREACH/SECURE verdict the claim describes. -/
theorem replay_check_raises_type_error :
    classify_event isoNone [⟨"BAR-001", "2024-01-01T00:00:00+00:00"⟩]
      initialRegistry payloadReplayCrash true true =
      (.error .typeError, initialRegistry) := by decide

/-! ## Claim C5 -/

/-- Claim C5: learn-on-first-use.  For a bar absent from the registry, the
first reading that reaches the identity check with UID X registers X as the
baseline and passes the identity check (the run continues with the purity
rule); afterwards a reading with UID Y ≠ X is classified BREACH with the
RFID-mismatch reason, and a reading with UID X again passes the identity
check. -/
theorem learn_on_first_use (parseIso : String → Option PyDateTime) (db : Db)
    (reg : Registry) (bar X Y : String) (p1 p2 p3 : Payload)
    (d1 d2 d3 : PyDateTime)
    (h0 : lookupReg reg bar = none) (hXY : Y ≠ X)
    (hb1 : p1.bar_id = some bar) (hu1 : p1.rfid_uid = some X)
    (ht1 : p1.tamper_status = some "INTACT")
    (hts1 : payload_timestamp parseIso p1 = some d1)
    (hb2 : p2.bar_id = some bar) (hu2 : p2.rfid_uid = some Y)
    (ht2 : p2.tamper_status = some "INTACT")
    (hts2 : payload_timestamp parseIso p2 = some d2)
    (hb3 : p3.bar_id = some bar) (hu3 : p3.rfid_uid = some X)
    (ht3 : p3.tamper_status = some "INTACT")
    (hts3 : payload_timestamp parseIso p3 = some d3) :
    classify_event parseIso db reg p1 true true =
      purity_stage db bar (p1.vault_door_status.getD "UNKNOWN")
        (payload_purity p1) (reg ++ [(bar, X)]) ∧
    lookupReg (classify_event parseIso db reg p1 true true).2 bar = some X ∧
    classify_event parseIso db (reg ++ [(bar, X)]) p2 true true =
      (.ok ("BREACH", [rfid_mismatch_reason]), reg ++ [(bar, X)]) ∧
    classify_event parseIso db (reg ++ [(bar, X)]) p3 true true =
      purity_stage db bar (p3.vault_door_status.getD "UNKNOWN")
        (payload_purity p3) (reg ++ [(bar, X)]) := by
  have hlook : lookupReg (reg ++ [(bar, X)]) bar = some X :=
    lookupReg_append_self reg bar X h0
  have h1 : classify_event parseIso db reg p1 true true =
      purity_stage db bar (p1.vault_door_status.getD "UNKNOWN")
        (payload_purity p1) (reg ++ [(bar, X)]) := by
    have := classify_event_to_purity_stage parseIso db reg p1 d1 hts1 ht1
      (by simp [_get_expected_rfid, hb1, hu1, h0])
    rw [this]
    simp [_get_expected_rfid, hb1, hu1, h0]
  refine ⟨h1, ?_, ?_, ?_⟩
  · rw [h1, purity_stage_snd]
    exact hlook
  · exact classify_event_rfid_mismatch parseIso db (reg ++ [(bar, X)]) p2 d2 X
      hts2 ht2 (by simp [hb2, hlook]) (by simp [hu2]; exact hXY)
  · have := classify_event_to_purity_stage parseIso db (reg ++ [(bar, X)]) p3 d3
      hts3 ht3 (by simp [_get_expected_rfid, hb3, hu3, hlook])
    rw [this]
    simp [_get_expected_rfid, hb3, hu3, hlook]

theorem learn_on_first_use_witness :
    classify_event isoNone [] initialRegistry payloadFirstTagA true true =
      purity_stage [] "BAR-777" (payloadFirstTagA.vault_door_status.getD "UNKNOWN")
        (payload_purity payloadFirstTagA) (initialRegistry ++ [("BAR-777", "TAG-A")]) ∧
    lookupReg (classify_event isoNone [] initialRegistry payloadFirstTagA true true).2
      "BAR-777" = some "TAG-A" ∧
    classify_event isoNone [] (initialRegistry ++ [("BAR-777", "TAG-A")])
      payloadThenTagB true true =
      (.ok ("BREACH", [rfid_mismatch_reason]), initialRegistry ++ [("BAR-777", "TAG-A")]) ∧
    classify_event isoNone [] (initialRegistry ++ [("BAR-777", "TAG-A")])
      payloadAgainTagA true true =
      purity_stage [] "BAR-777" (payloadAgainTagA.vault_door_status.getD "UNKNOWN")
        (payload_purity payloadAgainTagA) (initialRegistry ++ [("BAR-777", "TAG-A")]) :=
  learn_on_first_use isoNone [] initialRegistry "BAR-777" "TAG-A" "TAG-B"
    payloadFirstTagA payloadThenTagB payloadAgainTagA
    ⟨2024, 2, 1, 0, 0, 0⟩ ⟨2024, 2, 2, 0, 0, 0⟩ ⟨2024, 2, 3, 0, 0, 0⟩
    (by decide) (by decide) (by decide) (by decide) (by decide) (by decide)
    (by decide) (by decide) (by decide) (by decide) (by decide) (by decide)
    (by decide) (by decide)

/-! ## Claim C6 -/

/-- Claim C6 counterexample: a reading for the unregistered bar BAR-002
whose purity is below the minimum is classified BREACH, yet the call adds
the learned baseline ("BAR-002", "TAGX") to the registry — the registry is
not the same after a BREACH verdict. -/
theorem breach_updates_registry_cex :
    classify_event isoNone [] initialRegistry payloadLearnedBreach true true =
      (.ok ("BREACH", [purity_reason 50]), initialRegistry ++ [("BAR-002", "TAGX")]) ∧
    initialRegistry ++ [("BAR-002", "TAGX")] ≠ initialRegistry := by decide

/-- Claim C6 amended: the registry is changed only by appending the
learn-on-first-use entry (bar id, observed UID) when the bar id is not yet
registered; existing entries are never modified or removed.  The update
happens whenever the identity check is reached, regardless of the final
verdict. -/
theorem registry_frame (parseIso : String → Option PyDateTime) (db : Db)
    (reg : Registry) (p : Payload) (hv sv : Bool) :
    (classify_event parseIso db reg p hv sv).2 = reg ∨
    (lookupReg reg (p.bar_id.getD "") = none ∧
     (classify_event parseIso db reg p hv sv).2 =
       reg ++ [(p.bar_id.getD "", p.rfid_uid.getD "")]) := by
  unfold classify_event
  by_cases h1 : (!hv || !sv) = true
  · rw [if_pos h1]; exact Or.inl rfl
  · rw [if_neg h1]
    cases hts : payload_timestamp parseIso p with
    | none => exact Or.inl rfl
    | some d =>
      by_cases h2 : p.tamper_status.getD "UNKNOWN" ≠ "INTACT"
      · rw [if_pos h2]; exact Or.inl rfl
      · rw [if_neg h2]
        cases hlook : lookupReg reg (p.bar_id.getD "") with
        | some u =>
          have he : _get_expected_rfid reg (p.bar_id.getD "")
              (p.rfid_uid.getD "") = (u, reg) := by
            simp [_get_expected_rfid, hlook]
          left
          simp only [he]
          split
          · rfl
          · exact purity_stage_snd _ _ _ _ _
        | none =>
          have he : _get_expected_rfid reg (p.bar_id.getD "")
              (p.rfid_uid.getD "") =
              (p.rfid_uid.getD "", reg ++ [(p.bar_id.getD "", p.rfid_uid.getD "")]) := by
            simp [_get_expected_rfid, hlook]
          right
          refine ⟨rfl, ?_⟩
          simp only [he]
          split
          · rfl
          · exact purity_stage_snd _ _ _ _ _

/-! ## Claim C7 -/

/-- Claim C7: for a payload passing the earlier rules, purity exactly equal
to PURITY_MIN passes the purity rule (the verdict is whatever the remaining
door/replay rules decide), while purity strictly below it yields BREACH
with the reason embedding both the observed purity and the threshold. -/
theorem purity_boundary (parseIso : String → Option PyDateTime)
    (db : Db) (reg : Registry) (p : Payload) (d : PyDateTime)
    (hts : payload_timestamp parseIso p = some d)
    (htamper : p.tamper_status = some "INTACT")
    (hrfid : p.rfid_uid.getD "" =
      (_get_expected_rfid reg (p.bar_id.getD "") (p.rfid_uid.getD "")).1) :
    (payload_purity p = PURITY_MIN →
      classify_event parseIso db reg p true true =
        door_stage db (p.bar_id.getD "") (p.vault_door_status.getD "UNKNOWN")
          (_get_expected_rfid reg (p.bar_id.getD "") (p.rfid_uid.getD "")).2) ∧
    (payload_purity p < PURITY_MIN →
      classify_event parseIso db reg p true true =
        (.ok ("BREACH", [purity_reason (payload_purity p)]),
          (_get_expected_rfid reg (p.bar_id.getD "") (p.rfid_uid.getD "")).2)) := by
  constructor <;> intro h <;>
    rw [classify_event_to_purity_stage parseIso db reg p d hts htamper hrfid] <;>
    unfold purity_stage
  · rw [h, if_neg (lt_irrefl PURITY_MIN)]
  · rw [if_pos h]

theorem purity_boundary_witness :
    (classify_event isoNone [] initialRegistry payloadPurityEdge true true =
      door_stage [] (payloadPurityEdge.bar_id.getD "")
        (payloadPurityEdge.vault_door_status.getD "UNKNOWN")
        (_get_expected_rfid initialRegistry (payloadPurityEdge.bar_id.getD "")
          (payloadPurityEdge.rfid_uid.getD "")).2) ∧
    (classify_event isoNone [] initialRegistry payloadPurityLow true true =
      (.ok ("BREACH", [purity_reason (payload_purity payloadPurityLow)]),
        (_get_expected_rfid initialRegistry (payloadPurityLow.bar_id.getD "")
          (payloadPurityLow.rfid_uid.getD "")).2)) :=
  ⟨(purity_boundary isoNone [] initialRegistry payloadPurityEdge
      ⟨2024, 1, 2, 0, 0, 0⟩ (by decide) (by decide) (by decide)).1 (by decide),
   (purity_boundary isoNone [] initialRegistry payloadPurityLow
      ⟨2024, 1, 2, 0, 0, 0⟩ (by decide) (by decide) (by decide)).2 (by decide)⟩

/-! ## Claim C9 -/

/-- Claim C9 counterexample: on a well-formed second reading for BAR-001,
`classify_event` does not return a (status, reasons) pair at all — it
raises `TypeError` at the replay comparison. -/
theorem classify_event_crash_cex :
    classify_event isoNone [⟨"BAR-001", "2023-05-05T05:05:05+00:00"⟩]
      initialRegistry payloadSecondReading true true =
      (.error .typeError, initialRegistry) := by decide

/-- Claim C9 amended: whenever `classify_event` returns normally, the
status is "SECURE" with no reasons or "BREACH" with exactly one reason;
the only abnormal outcome is the `TypeError` raised at the replay
comparison, which occurs only when a previous event exists for the bar. -/
theorem classify_event_result_shape (parseIso : String → Option PyDateTime)
    (db : Db) (reg : Registry) (p : Payload) (hv sv : Bool) :
    match (classify_event parseIso db reg p hv sv).1 with
    | .ok (st, rs) => (st = "SECURE" ∧ rs = []) ∨ (st = "BREACH" ∧ rs.length = 1)
    | .error e => e = .typeError ∧
        _get_last_event_time db (p.bar_id.getD "") ≠ none := by
  unfold classify_event
  by_cases h1 : (!hv || !sv) = true
  · rw [if_pos h1]; simp
  · rw [if_neg h1]
    cases hts : payload_timestamp parseIso p with
    | none => simp
    | some d =>
      by_cases h2 : p.tamper_status.getD "UNKNOWN" ≠ "INTACT"
      · rw [if_pos h2]; simp
      · rw [if_neg h2]
        by_cases h3 : p.rfid_uid.getD "" ≠
            (_get_expected_rfid reg (p.bar_id.getD "") (p.rfid_uid.getD "")).1
        · rw [if_pos h3]; simp
        · rw [if_neg h3]
          unfold purity_stage door_stage replay_stage
          by_cases h4 : payload_purity p < PURITY_MIN
          · rw [if_pos h4]; simp
          · rw [if_neg h4]
            by_cases h5 : p.vault_door_status.getD "UNKNOWN" = "OPEN" ∧
                p.bar_id.getD "" = ""
            · rw [if_pos h5]; simp
            · rw [if_neg h5]
              cases hL : _get_last_event_time db (p.bar_id.getD "") with
              | none => simp
              | some t => simp [hL]

/-! ## Claim C10 -/

/-- Claim C10: a payload whose purity key is absent or whose purity value
cannot be converted to a float does not make `classify_event` raise — the
purity falls back to 0.0, and when the earlier rules pass the payload is
classified BREACH by the purity-threshold rule. -/
theorem non_numeric_purity_breaches (parseIso : String → Option PyDateTime)
    (db : Db) (reg : Registry) (p : Payload) (d : PyDateTime)
    (hts : payload_timestamp parseIso p = some d)
    (htamper : p.tamper_status = some "INTACT")
    (hrfid : p.rfid_uid.getD "" =
      (_get_expected_rfid reg (p.bar_id.getD "") (p.rfid_uid.getD "")).1)
    (hp : p.purity = none ∨ p.purity = some .nonNumeric) :
    classify_event parseIso db reg p true true =
      (.ok ("BREACH", [purity_reason 0]),
        (_get_expected_rfid reg (p.bar_id.getD "") (p.rfid_uid.getD "")).2) := by
  have h0 : payload_purity p = 0 := by
    rcases hp with h | h <;> simp [payload_purity, h]
  rw [classify_event_to_purity_stage parseIso db reg p d hts htamper hrfid]
  unfold purity_stage
  rw [h0, if_pos (by norm_num [PURITY_MIN])]

theorem non_numeric_purity_breaches_witness :
    classify_event isoNone [] initialRegistry payloadNoPurity true true =
      (.ok ("BREACH", [purity_reason 0]),
        (_get_expected_rfid initialRegistry (payloadNoPurity.bar_id.getD "")
          (payloadNoPurity.rfid_uid.getD "")).2) :=
  non_numeric_purity_breaches isoNone [] initialRegistry payloadNoPurity
    ⟨2024, 1, 2, 0, 0, 0⟩ (by decide) (by decide) (by decide) (Or.inl rfl)

theorem pkcs7_pad_length_mod (x : Bytes) :
    (_pkcs7_pad x).length % BLOCK_SIZE = 0 := by
  unfold _pkcs7_pad BLOCK_SIZE
  simp only [List.length_append, List.length_replicate]
  omega

theorem unpad_append_replicate (x : Bytes) (n : ℕ) (b : Byte)
    (hb1 : 1 ≤ b.val) (hb2 : b.val ≤ BLOCK_SIZE) (hn : n = b.val) :
    _pkcs7_unpad (x ++ List.replicate n b) = .ok x := by
  obtain ⟨m, hm⟩ : ∃ m, n = m + 1 := ⟨n - 1, by omega⟩
  unfold _pkcs7_unpad
  rw [hm, List.replicate_succ', ← List.append_assoc, List.getLast?_concat]
  simp only []
  rw [if_neg (by omega)]
  congr 1
  rw [List.append_assoc, ← List.replicate_succ', ← hm]
  have hlen : (x ++ List.replicate n b).length = x.length + n := by simp
  rw [hlen, hn, Nat.add_sub_cancel]
  have := List.take_left x (List.replicate n b)
  rwa [hn] at this

theorem pkcs7_unpad_pad (x : Bytes) : _pkcs7_unpad (_pkcs7_pad x) = .ok x := by
  have hB : BLOCK_SIZE = 16 := rfl
  have hm : x.length % BLOCK_SIZE < BLOCK_SIZE := Nat.mod_lt _ (by omega)
  exact unpad_append_replicate x _ _ (by simp; omega) (by simp) rfl

/-- Claim C8 counterexample. -/
theorem decrypt_empty_index_error_cex :
    decrypt_aes_cbc (fun _ x => x) [] ivZeros = .error .indexError ∧
    ([] : Bytes).length % BLOCK_SIZE = 0 ∧
    PyErr.indexError ≠ PyErr.paddingValueError := by decide

/-- Claim C8 amended. -/
theorem decrypt_aes_cbc_characterization (D : Bytes → Bytes → Bytes)
    (ciphertext iv : Bytes) (hiv : iv.length = 16) :
    (ciphertext.length % BLOCK_SIZE ≠ 0 →
      decrypt_aes_cbc D ciphertext iv = .error .blockLenValueError) ∧
    (ciphertext.length % BLOCK_SIZE = 0 → D iv ciphertext = [] →
      decrypt_aes_cbc D ciphertext iv = .error .indexError) ∧
    (∀ rest p, ciphertext.length % BLOCK_SIZE = 0 →
      D iv ciphertext = rest ++ [p] → (p.val = 0 ∨ BLOCK_SIZE < p.val) →
      decrypt_aes_cbc D ciphertext iv = .error .paddingValueError) ∧
    (∀ rest p, ciphertext.length % BLOCK_SIZE = 0 →
      D iv ciphertext = rest ++ [p] → 1 ≤ p.val → p.val ≤ BLOCK_SIZE →
      decrypt_aes_cbc D ciphertext iv =
        .ok ((rest ++ [p]).take (rest.length + 1 - p.val))) := by
  unfold decrypt_aes_cbc
  rw [if_neg (by rw [hiv]; simp)]
  refine ⟨fun h => by rw [if_pos h], ?_, ?_, ?_⟩
  · intro h hD
    rw [if_neg (by rw [h]; simp), hD]
    rfl
  · intro rest p h hD hbad
    rw [if_neg (by rw [h]; simp), hD]
    unfold _pkcs7_unpad
    rw [List.getLast?_concat]
    simp only []
    rw [if_pos (by omega)]
  · intro rest p h hD h1 h2
    rw [if_neg (by rw [h]; simp), hD]
    unfold _pkcs7_unpad
    rw [List.getLast?_concat]
    simp only []
    rw [if_neg (by omega)]
    congr 1
    simp

theorem decrypt_aes_cbc_characterization_witness :
    decrypt_aes_cbc (fun _ x => x) ctOneByte ivZeros =
      .ok ((List.replicate 15 (0 : Byte) ++ [(1 : Byte)]).take
        ((List.replicate 15 (0 : Byte)).length + 1 - (1 : Byte).val)) :=
  (decrypt_aes_cbc_characterization (fun _ x => x) ctOneByte ivZeros
    (by decide)).2.2.2 (List.replicate 15 (0 : Byte)) (1 : Byte)
    (by decide) rfl (by decide) (by decide)

set_option maxRecDepth 2048 in
theorem chr_round (bs : Bytes) : chrDecode (chrEncode bs) = some bs := by
  have hpt : ∀ b : Byte, (Char.ofNat b.val).toNat % 256 = b.val := by decide
  unfold chrDecode chrEncode
  congr 1
  show (bs.map (fun b => Char.ofNat b.val)).map
      (fun c => (⟨c.toNat % 256, Nat.mod_lt _ (by norm_num)⟩ : Byte)) = bs
  induction bs with
  | nil => rfl
  | cons hd tl ih =>
    simp only [List.map_cons, ih, List.cons.injEq, and_true]
    exact Fin.ext (hpt hd)

/-- Claim C2: round trip. -/
theorem packet_round_trip (canon : SensorReading → Bytes)
    (parse : Bytes → Option SensorReading) (sha3 sign : Bytes → Bytes)
    (verify_sig : Bytes → Bytes → Bool) (E D : Bytes → Bytes → Bytes)
    (b64e : Bytes → String) (b64d : String → Option Bytes) (iv : Bytes)
    (r : SensorReading)
    (hparse : parse (canon r) = some r)
    (hverify : verify_sig (sha3 (canon r)) (sign (sha3 (canon r))) = true)
    (hED : ∀ x, x.length % BLOCK_SIZE = 0 → D iv (E iv x) = x)
    (hElen : ∀ x, (E iv x).length = x.length)
    (hiv : iv.length = 16)
    (hb64 : ∀ x, b64d (b64e x) = some x) :
    verify_and_decrypt_packet b64d D sha3 verify_sig parse
      (build_secure_packet canon sha3 sign E b64e iv r) =
      some (r, true, true) := by
  unfold build_secure_packet verify_and_decrypt_packet encrypt_aes_cbc
  simp only [hb64]
  have hdec : decrypt_aes_cbc D (E iv (_pkcs7_pad (canon r))) iv =
      .ok (canon r) := by
    unfold decrypt_aes_cbc
    rw [if_neg (by rw [hiv]; simp),
      if_neg (by rw [hElen, pkcs7_pad_length_mod]; simp),
      hED _ (pkcs7_pad_length_mod _), pkcs7_unpad_pad]
  rw [hdec]
  simp [hparse, hverify]

theorem packet_round_trip_witness :
    verify_and_decrypt_packet chrDecode (fun _ x => x) id
      (fun d s => decide (d = s)) (fun _ => some readingNormal)
      (build_secure_packet (fun _ => []) id id (fun _ x => x) chrEncode
        ivZeros readingNormal) = some (readingNormal, true, true) :=
  packet_round_trip (fun _ => []) (fun _ => some readingNormal) id id
    (fun d s => decide (d = s)) (fun _ x => x) (fun _ x => x) chrEncode
    chrDecode ivZeros readingNormal rfl (by decide) (fun x _ => rfl)
    (fun x => rfl) (by decide) chr_round


end GoldVault
